import Mathlib

/-!
Verification of the stock-monitor price-refresh pipeline.

Shallow embedding of the repository sources:
- src/alerts/views.py : Django variant (fetch_sheet, fetch_single_stock_price,
  process_stock_batch, fetch_stock_prices, log_target_hit, refresh_sheet)
- src/app.py : Flask variant (load_watchlists, fetch_stock_price,
  check_and_log_target_hit, log_target_hit, background_monitor)
- src/alerts/tasks.py : scheduler gate (scheduled_job)

Prices are modelled as rationals. The Python dict-of-dicts target_hit_logged is
modelled as an association list of association lists with Python dict lookup and
insert semantics. Network calls, the thread pool and the wall clock are
abstracted into explicit parameters; everything else follows the source line by
line, as noted on each definition.
-/

namespace StockMonitor

/-- Python round(x, 2) on prices, modelled on exact rationals (round to integer
hundredths). The source applies round to binary floats, where half-way ties use
round-half-even on the nearest double; ties are representation-dependent there
and are outside this model, which rounds halves up. On two-decimal inputs both
agree and rounding is the identity. -/
def round2 (q : ℚ) : ℚ := (⌊q * 100 + 1 / 2⌋ : ℚ) / 100

/-- A watchlist entry as built by fetch_sheet (views.py lines 137-143):
scrip_name, target_price, yf_symbol, current_price, status. -/
structure Stock where
  scrip_name : String
  target_price : ℚ
  yf_symbol : String
  current_price : ℚ
  status : String
deriving Repr, DecidableEq

/-- One appended hit row (views.py log_target_hit header: sheet_name, scrip_name,
target_price, hit_price, date, time). The date and time columns are wall-clock
values and carry no information used by any claim; they are left out of the
model. -/
structure LedgerRecord where
  sheet_name : String
  scrip_name : String
  target_price : ℚ
  hit_price : ℚ
deriving Repr, DecidableEq

/-- Python dict lookup d.get(k) on an association list. -/
def dictLookup {α : Type} : List (String × α) → String → Option α
  | [], _ => none
  | (k', v) :: rest, k => if k' = k then some v else dictLookup rest k

/-- Python dict assignment d[k] = v on an association list: overwrite in place if
the key exists, append otherwise. -/
def dictInsert {α : Type} : List (String × α) → String → α → List (String × α)
  | [], k, v => [(k, v)]
  | (k', v') :: rest, k, v =>
      if k' = k then (k, v) :: rest else (k', v') :: dictInsert rest k v

/-- The global target_hit_logged: watchlist name, then scrip name, to a sticky
boolean, mirroring the Python dict of dicts. -/
abbrev FlagDict := List (String × List (String × Bool))

/-- target_hit_logged[sheet][scrip] as an optional value (absent keys give none). -/
def lookupFlag (fl : FlagDict) (sheet scrip : String) : Option Bool :=
  (dictLookup fl sheet).bind (fun inner => dictLookup inner scrip)

/-- target_hit_logged[sheet][scrip] read the way the Python code reads it after
initialisation: a missing key would raise KeyError, so theorems reading through
this function keep the key present. -/
def getFlag (fl : FlagDict) (sheet scrip : String) : Bool :=
  (dictLookup ((dictLookup fl sheet).getD []) scrip).getD false

/-- target_hit_logged[sheet][scrip] = b. -/
def setFlag (fl : FlagDict) (sheet scrip : String) (b : Bool) : FlagDict :=
  dictInsert fl sheet (dictInsert ((dictLookup fl sheet).getD []) scrip b)

/-- views.py lines 188-189: if sheet_name not in target_hit_logged, create the
empty inner dict. -/
def initSheet (fl : FlagDict) (sheet : String) : FlagDict :=
  if dictLookup fl sheet = none then dictInsert fl sheet [] else fl

/-- views.py lines 188-191: initialise the sticky flag structure, creating the
sheet dict and then the scrip entry (as False) when absent. -/
def initFlags (fl : FlagDict) (sheet scrip : String) : FlagDict :=
  if dictLookup ((dictLookup (initSheet fl sheet) sheet).getD []) scrip = none
  then setFlag (initSheet fl sheet) sheet scrip false
  else initSheet fl sheet

/-- The mutable state the hit path touches: the sticky-flag dict and the
append-only hit-log sink contents. -/
structure LedgerState where
  flags : FlagDict
  ledger : List LedgerRecord
deriving Repr, DecidableEq

/-- views.py log_target_hit (lines 80-102) and likewise app.py log_target_hit
(lines 210-234): append one row to the sink. Both wrap the whole body in
try/except and swallow any failure, so the function always returns; sinkOk
abstracts sink availability (false: the write raised and was caught inside,
leaving the sink unchanged). -/
def log_target_hit (sinkOk : Bool) (ledger : List LedgerRecord)
    (sheet scrip : String) (target hit : ℚ) : List LedgerRecord :=
  if sinkOk then ledger ++ [⟨sheet, scrip, target, hit⟩] else ledger

/-- views.py fetch_single_stock_price lines 182-209: status assignment and
once-only hit logging for a stock whose current_price field is already set.
On current_price >= target_price: set status, initialise the flag structure
(lines 188-191), and if the flag is false call log_target_hit and then set the
flag to True (log_target_hit never raises, so the flag assignment on line 202
always runs, and the except on lines 204-206 is unreachable); otherwise set
status Below Target. -/
def check_and_log_hit_views (sinkOk : Bool) (st : LedgerState) (stock : Stock)
    (sheet_name : String) : Stock × LedgerState :=
  if stock.target_price ≤ stock.current_price then
    if getFlag (initFlags st.flags sheet_name stock.scrip_name) sheet_name stock.scrip_name
        = false then
      ({ stock with status := "Target Hit!" },
       ⟨setFlag (initFlags st.flags sheet_name stock.scrip_name) sheet_name
          stock.scrip_name true,
        log_target_hit sinkOk st.ledger sheet_name stock.scrip_name
          stock.target_price stock.current_price⟩)
    else
      ({ stock with status := "Target Hit!" },
       ⟨initFlags st.flags sheet_name stock.scrip_name, st.ledger⟩)
  else
    ({ stock with status := "Below Target" }, st)

/-- app.py check_and_log_target_hit (lines 202-208), with app.py log_target_hit
as the sink writer. The source indexes target_hit_logged[sheet_name][scrip]
directly (load_watchlists populates the flag for every loaded scrip, so the key
is present at every call site); theorems that rely on the read keep the key
present through hypotheses. On a hit with the flag false the source calls
log_target_hit (which swallows its own failures) and then unconditionally sets
the flag to True. -/
def check_and_log_target_hit (sinkOk : Bool) (st : LedgerState)
    (sheet_name scrip : String) (target current : ℚ) : String × LedgerState :=
  if target ≤ current then
    if getFlag st.flags sheet_name scrip = false then
      ("🎯 Target Hit!",
       ⟨setFlag st.flags sheet_name scrip true,
        log_target_hit sinkOk st.ledger sheet_name scrip target current⟩)
    else ("🎯 Target Hit!", st)
  else ("Below Target", st)

/-- The spec Hit Ledger contract recordIfNewHit returns a boolean, true iff a
new record was appended; the source reports the hit through the append itself,
so the returned boolean is read off the ledger growth. -/
def appendedNewHit (before after : LedgerState) : Bool :=
  after.ledger.length == before.ledger.length + 1

/-- views.py fetch_single_stock_price (lines 162-221). resp is the outcome of
the single ticker.history call: error models any exception reaching the outer
handler (lines 216-219), ok gives the Close column of the returned candles in
time order. If candles came back, the selected close is the second-to-last for
two or more candles, the last (only) one otherwise (lines 175-178), rounded to
two decimals (line 180); then the hit path of lines 182-209 runs. Zero candles:
price 0, status No Data, no ledger interaction. -/
def fetch_single_stock_price (sinkOk : Bool) (resp : Except String (List ℚ))
    (st : LedgerState) (stock : Stock) (sheet_name : String) : Stock × LedgerState :=
  match resp with
  | .error _ => ({ stock with current_price := 0, status := "Error" }, st)
  | .ok hist =>
      if hist.length ≠ 0 then
        check_and_log_hit_views sinkOk st
          { stock with current_price := round2 (if 2 ≤ hist.length then hist.getD (hist.length - 2) 0 else hist.getD (hist.length - 1) 0) }
          sheet_name
      else ({ stock with current_price := 0, status := "No Data" }, st)

/-- A sequence of refresh cycles for one (sheet, scrip): each cycle computes a
current price and runs the hit path of fetch_single_stock_price on it. -/
def runHits (sinkOk : Bool) (sheet : String) (stock : Stock) (prices : List ℚ)
    (st : LedgerState) : LedgerState :=
  match prices with
  | [] => st
  | p :: ps =>
      runHits sinkOk sheet stock ps
        (check_and_log_hit_views sinkOk st { stock with current_price := p } sheet).2

/-- Whether pat is a prefix of the character list s. -/
def headMatches : List Char → List Char → Bool
  | [], _ => true
  | _ :: _, [] => false
  | a :: as, b :: bs => a == b && headMatches as bs

/-- Whether pat occurs as a contiguous run somewhere in s. -/
def occursIn (pat s : List Char) : Bool :=
  match s with
  | [] => headMatches pat []
  | _ :: rest => headMatches pat s || occursIn pat rest

/-- Python substring test: pat in s. -/
def containsSubstr (s pat : String) : Bool := occursIn pat.data s.data

/-- Python str.lower(), restricted to the ASCII case mapping the source needs. -/
def pyLower (s : String) : String := ⟨s.data.map Char.toLower⟩

/-- views.py lines 251-257: map the message of an exception caught in the batch
collection loop to a status. -/
def errStatusFor (msg : String) : String :=
  if containsSubstr (pyLower msg) "timeout" then "Timeout"
  else if containsSubstr (pyLower msg) "delisted" then "Delisted"
  else "Error"

/-- Outcome of one submitted future as seen by future.result. A task runs
fetch_single_stock_price, whose body catches every exception and returns the
stock, so real outcomes are always done; the raised arm models the per-future
except handler the source keeps on lines 242-259. -/
inductive TaskOutcome where
  | done (s : Stock)
  | raised (msg : String)
deriving Repr, DecidableEq

/-- views.py process_stock_batch (lines 224-262), abstracted over the thread
pool: completed lists the (submitted stock, future outcome) pairs whose task
finishes before the 60-second batch deadline, in as_completed order; pending
lists the stocks whose task is still running when that deadline expires.
future.result(timeout=20) is called only on futures as_completed has already
yielded, i.e. completed ones, so the 20-second per-task timeout can never fire.
When tasks are still pending at the batch deadline, as_completed raises
TimeoutError from the for-statement itself, outside the try block of lines
239-259, so the function aborts without returning the collected results. -/
def process_stock_batch (completed : List (Stock × TaskOutcome))
    (pending : List Stock) : Except String (List Stock) :=
  if pending.isEmpty then
    .ok (completed.map (fun p =>
      match p.2 with
      | .done s => s
      | .raised msg => { p.1 with current_price := 0, status := errStatusFor msg }))
  else .error "concurrent.futures.TimeoutError"

def BATCH_SIZE : ℕ := 25

/-- views.py fetch_stock_prices, per-sheet batching loop (lines 287-308).
runBatch abstracts process_stock_batch on one batch. The loop takes BATCH_SIZE
stocks at a time; after a batch, when stocks remain (i + BATCH_SIZE <
total_stocks), line 305 evaluates time.sleep(BATCH_DELAY) - but views.py never
imports time, so that statement raises NameError and the whole refresh aborts:
later batches never run and the per-sheet write-back on line 308 is never
reached. A sheet needing a single batch completes normally. (A sheet with no
stocks is skipped by the source before the loop; here the empty list just
yields the empty batch result.) -/
def fetch_stock_prices_sheet (runBatch : List Stock → Except String (List Stock))
    (stocks : List Stock) : Except String (List Stock) :=
  if stocks.length ≤ BATCH_SIZE then runBatch stocks
  else
    match runBatch (stocks.take BATCH_SIZE) with
    | .error e => .error e
    | .ok _ => .error "NameError: name time is not defined"

/-- The Target Price cell of a raw row, as seen by float(...): num when the
conversion succeeds, bad when it raises ValueError or TypeError (missing field
or non-numeric text). A blank spreadsheet cell surfaces as a float NaN in
pandas; NaN arithmetic is floating point and outside this model. -/
inductive TargetCell where
  | num (q : ℚ)
  | bad
deriving Repr, DecidableEq

/-- One raw spreadsheet row: the Scrip Name cell (as the string str(...) yields,
with the literal text nan for a NaN cell) and the Target Price cell. -/
structure RawRow where
  scrip : String
  target : TargetCell
deriving Repr, DecidableEq

/-- Whitespace for Python str.strip(). -/
def isSpaceChar (c : Char) : Bool := c == ' ' || c == '\t' || c == '\n' || c == '\r'

/-- Python str.strip(): drop leading and trailing whitespace. -/
def pyStrip (s : String) : String :=
  ⟨((s.data.dropWhile isSpaceChar).reverse.dropWhile isSpaceChar).reverse⟩

/-- Row filtering of fetch_sheet (views.py lines 124-143): strip the name, skip
empty or nan names, skip rows whose target does not parse as a float, skip
targets <= 0, and otherwise build the entry with the .NS suffix added when the
name has no exchange-suffix dot, current_price 0 and status Not Fetched. -/
def rowEntry (r : RawRow) : Option Stock :=
  if pyStrip r.scrip = "" ∨ pyStrip r.scrip = "nan" then none
  else
    match r.target with
    | .bad => none
    | .num tp =>
        if tp ≤ 0 then none
        else some ⟨pyStrip r.scrip, tp,
          if (pyStrip r.scrip).data.contains '.' then pyStrip r.scrip
          else pyStrip r.scrip ++ ".NS",
          0, "Not Fetched"⟩

/-- The full row loop of fetch_sheet over one tab (views.py lines 123-145). -/
def parse_rows (rows : List RawRow) : List Stock := rows.filterMap rowEntry

/-- The body of fetch_sheet for one tab (views.py lines 114-149). Line 118 reads
resp.text, but resp is never assigned anywhere in fetch_sheet (the HTTP request
for the printed url is missing from the source), so the body raises NameError
unconditionally, before the row loop of lines 123-143 or the flag
initialisation of lines 148-149 can run. -/
def fetch_sheet_tab_body (_rows : List RawRow) : Except String (List Stock) :=
  Except.error "NameError: name resp is not defined"

/-- fetch_sheet for one tab including its per-tab except handler (views.py lines
151-154), which catches the NameError and stores the empty list for the tab. -/
def fetch_sheet_tab (rows : List RawRow) : List Stock :=
  match fetch_sheet_tab_body rows with
  | .ok entries => entries
  | .error _ => []

/-- The effect of one fetch_sheet call on target_hit_logged: the NameError of
line 118 sends every tab to the per-tab handler before lines 148-149 run, so
the flag dict is never modified. -/
def fetch_sheet_flags (fl : FlagDict) : FlagDict := fl

/-- views.py fetch_sheet lines 148-149 in isolation: initialise a tab flag map,
with every loaded scrip false, only when the tab is absent from
target_hit_logged. (Unreachable in the shipped code - line 118 raises first -
but it is the write the lazy-load path performs on the flags when reached.) -/
def fetch_sheet_flag_init (fl : FlagDict) (tab : String) (scrips : List String) :
    FlagDict :=
  if dictLookup fl tab = none then dictInsert fl tab (scrips.map (fun r => (r, false)))
  else fl

/-- views.py refresh_sheet (lines 344-369): watchlists.clear() and
target_hit_logged.clear(), then fetch_sheet() (which leaves the flag dict
untouched, per fetch_sheet_flags). The persisted CSV hit log is not cleared. -/
def refresh_sheet_model (st : LedgerState) : LedgerState :=
  ⟨fetch_sheet_flags [], st.ledger⟩

/-- What one ticker object offers in app.py fetch_stock_price: the two info
fields (absent or present; Python truthiness treats a present 0 like absent)
and the Close column of the history fallback. An error models an exception
inside the per-suffix try, caught by the continue on lines 141-143. -/
structure TickerData where
  currentPrice : Option ℚ
  regularMarketPrice : Option ℚ
  histCloses : List ℚ
deriving Repr, DecidableEq

/-- app.py fetch_stock_price, one suffix attempt (lines 117-143): return
info.currentPrice if present and truthy, else info.regularMarketPrice likewise,
else - when the history is non-empty - the LAST close (iloc[-1], line 137),
each rounded to two decimals; none when the attempt yields nothing or raised. -/
def tryTicker (t : Except String TickerData) : Option ℚ :=
  match t with
  | .error _ => none
  | .ok d =>
      if d.currentPrice.getD 0 ≠ 0 then some (round2 (d.currentPrice.getD 0))
      else if d.regularMarketPrice.getD 0 ≠ 0 then some (round2 (d.regularMarketPrice.getD 0))
      else if d.histCloses.length ≠ 0 then some (round2 (d.histCloses.getLast?.getD 0))
      else none

/-- app.py fetch_from_nse_api (lines 152-200): the NSE quote price if the API
answered with one, else the Yahoo chart regularMarketPrice if present, else
0.0. -/
def fetch_from_nse_api (nse yahoo : Option ℚ) : ℚ :=
  match nse with
  | some p => round2 p
  | none =>
      match yahoo with
      | some p => round2 p
      | none => 0

/-- app.py fetch_stock_price (lines 105-150): try the .NS ticker, then the .BO
ticker, then fall through to fetch_from_nse_api. No attempt is ever repeated
and no backoff is applied; a fully failed chain returns 0.0. -/
def fetch_stock_price_app (ns bo : Except String TickerData)
    (nse yahoo : Option ℚ) : ℚ :=
  match tryTicker ns with
  | some p => p
  | none =>
      match tryTicker bo with
      | some p => p
      | none => fetch_from_nse_api nse yahoo

/-- Modelled from the spec (section 4.2 retry policy): no retry loop exists
anywhere in src/ - this definition renders the spec words for comparison with
the source fetchers. Up to a bounded number of attempts (fuel, default 3) on
transient failure; abort immediately on a failure classified as not found;
backoff delays are timing-only and not modelled. -/
def fetch_with_retry (fuel : ℕ) (provider : ℕ → Except String (List ℚ))
    (attempt : ℕ) : Except String (List ℚ) :=
  match fuel with
  | 0 => .error "retries exhausted"
  | f + 1 =>
      match provider attempt with
      | .ok candles => .ok candles
      | .error e =>
          if containsSubstr e "not found" then .error e
          else fetch_with_retry f provider (attempt + 1)

/-- A provider that fails transiently on the first attempt and succeeds on every
later one. -/
def pTransient : ℕ → Except String (List ℚ) :=
  fun n => if n = 0 then .error "HTTPSConnectionPool read timed out" else .ok [100]

/-- Time of day as Python datetime.time restricted to whole seconds (the gates
compare times whose microsecond field is zeroed). -/
structure TimeOfDay where
  hour : ℕ
  minute : ℕ
  second : ℕ
deriving Repr, DecidableEq

/-- Python datetime.time comparison: lexicographic on (hour, minute, second). -/
def timeLe (a b : TimeOfDay) : Bool :=
  if a.hour = b.hour then
    (if a.minute = b.minute then decide (a.second ≤ b.second)
     else decide (a.minute < b.minute))
  else decide (a.hour < b.hour)

/-- A local timestamp in the trading timezone: Python weekday() (0 = Monday ...
6 = Sunday) plus the time of day. -/
structure Timestamp where
  weekday : ℕ
  tod : TimeOfDay
deriving Repr, DecidableEq

def market_start : TimeOfDay := ⟨9, 15, 0⟩

def market_end : TimeOfDay := ⟨15, 30, 0⟩

/-- app.py background_monitor eligibility check (lines 238-250): weekday < 5,
market_start <= current_time <= market_end, and additionally minute in
[1, 16, 31, 46] (the polling minutes). -/
def should_run (t : Timestamp) : Bool :=
  decide (t.weekday < 5) && timeLe market_start t.tod && timeLe t.tod market_end
    && (t.tod.minute == 1 || t.tod.minute == 16 || t.tod.minute == 31 || t.tod.minute == 46)

/-- tasks.py scheduled_job in-job gate (lines 25-28): market_start <=
current_time <= market_end on the current date, with no weekday test (weekday
filtering is left to the cron trigger around it). -/
def scheduled_job_gate (t : Timestamp) : Bool :=
  timeLe ⟨9, 15, 0⟩ t.tod && timeLe t.tod ⟨15, 30, 0⟩

/-- A concrete entry used by closed theorems: RELIANCE with target 3000 and a
fetched price of 3050. -/
def demoStock : Stock := ⟨"RELIANCE", 3000, "RELIANCE.NS", 3050, "Not Fetched"⟩

/-- The empty hit-ledger state: no flags, no persisted rows. -/
def emptyState : LedgerState := ⟨[], []⟩

/-- Concrete distinct entries for batch theorems. -/
def mkStock (n : ℕ) : Stock := ⟨"S" ++ toString n, 100, "S" ++ toString n ++ ".NS", 0, "Not Fetched"⟩

/-- demoStock one refresh cycle later, with the price below the target. -/
def belowStock : Stock := ⟨"RELIANCE", 3000, "RELIANCE.NS", 2900, "Not Fetched"⟩

/-- A state in which the Demo/RELIANCE hit was already logged (flag sticky true,
one persisted row). -/
def trueState : LedgerState :=
  ⟨[("Demo", [("RELIANCE", true)])], [⟨"Demo", "RELIANCE", 3000, 3050⟩]⟩

/-- A state holding an armed (false) flag for W1/TATA, as load_watchlists leaves
it for every loaded scrip. -/
def presentState : LedgerState := ⟨[("W1", [("TATA", false)])], []⟩

/-! ### Rounding lemmas -/

theorem round2_intCast (n : ℤ) : round2 ((n : ℚ)) = n := by
  rw [round2]
  have harg : ((n : ℚ)) * 100 + 1 / 2 = ((n * 100 : ℤ) : ℚ) + 1 / 2 := by
    push_cast
    ring
  have hhalf : ⌊(1 / 2 : ℚ)⌋ = 0 := by
    rw [Int.floor_eq_iff]
    constructor <;> norm_num
  have hfloor : ⌊((n : ℚ)) * 100 + 1 / 2⌋ = n * 100 := by
    rw [harg, Int.floor_int_add, hhalf, add_zero]
  rw [hfloor]
  push_cast
  field_simp

theorem round2_natCast (n : ℕ) : round2 ((n : ℚ)) = n := by
  simpa using round2_intCast (n : ℤ)

theorem round2_2950 : round2 (2950 : ℚ) = 2950 := by simpa using round2_natCast 2950

theorem round2_3050 : round2 (3050 : ℚ) = 3050 := by simpa using round2_natCast 3050

/-! ### Association-list and flag-dict lemmas -/

theorem dictLookup_insert_self {α : Type} (d : List (String × α)) (k : String) (v : α) :
    dictLookup (dictInsert d k v) k = some v := by
  induction d with
  | nil => simp [dictInsert, dictLookup]
  | cons p tl ih =>
      obtain ⟨k', v'⟩ := p
      by_cases h : k' = k
      · simp [dictInsert, dictLookup, h]
      · simp [dictInsert, dictLookup, h, ih]

theorem dictLookup_insert_ne {α : Type} (d : List (String × α)) (k : String) (v : α)
    (k' : String) (h : k ≠ k') :
    dictLookup (dictInsert d k v) k' = dictLookup d k' := by
  induction d with
  | nil => simp [dictInsert, dictLookup, h]
  | cons p tl ih =>
      obtain ⟨k0, v0⟩ := p
      by_cases h0 : k0 = k
      · subst h0
        simp [dictInsert, dictLookup, h]
      · simp [dictInsert, dictLookup, h0, ih]

theorem lookupFlag_insert (fl : FlagDict) (sheet : String) (inner : List (String × Bool))
    (s n : String) :
    lookupFlag (dictInsert fl sheet inner) s n =
      if sheet = s then dictLookup inner n else lookupFlag fl s n := by
  by_cases h : sheet = s
  · subst h
    simp [lookupFlag, dictLookup_insert_self]
  · simp [lookupFlag, dictLookup_insert_ne fl sheet inner s h, h]

theorem innerLookup_eq (fl : FlagDict) (sheet scrip : String) :
    dictLookup ((dictLookup fl sheet).getD []) scrip = lookupFlag fl sheet scrip := by
  cases h : dictLookup fl sheet <;> simp [lookupFlag, h, dictLookup]

theorem getFlag_eq (fl : FlagDict) (s n : String) :
    getFlag fl s n = (lookupFlag fl s n).getD false := by
  rw [getFlag, innerLookup_eq]

theorem lookupFlag_setFlag (fl : FlagDict) (sheet scrip : String) (b : Bool)
    (s n : String) :
    lookupFlag (setFlag fl sheet scrip b) s n =
      if sheet = s ∧ scrip = n then some b else lookupFlag fl s n := by
  rw [setFlag, lookupFlag_insert]
  by_cases hs : sheet = s
  · subst hs
    by_cases hn : scrip = n
    · subst hn
      simp [dictLookup_insert_self]
    · rw [dictLookup_insert_ne _ _ _ _ hn, innerLookup_eq]
      simp [hn]
  · simp [hs]

theorem lookupFlag_initSheet (fl : FlagDict) (sheet s n : String) :
    lookupFlag (initSheet fl sheet) s n = lookupFlag fl s n := by
  rw [initSheet]
  by_cases h : dictLookup fl sheet = none
  · rw [if_pos h, lookupFlag_insert]
    by_cases hs : sheet = s
    · subst hs
      simp [lookupFlag, h, dictLookup]
    · simp [hs]
  · rw [if_neg h]

theorem lookupFlag_initFlags (fl : FlagDict) (sheet scrip s n : String) :
    lookupFlag (initFlags fl sheet scrip) s n =
      if sheet = s ∧ scrip = n ∧ lookupFlag fl s n = none then some false
      else lookupFlag fl s n := by
  rw [initFlags, innerLookup_eq, lookupFlag_initSheet]
  by_cases hc : lookupFlag fl sheet scrip = none
  · rw [if_pos hc, lookupFlag_setFlag, lookupFlag_initSheet]
    by_cases hsn : sheet = s ∧ scrip = n
    · obtain ⟨hs, hn⟩ := hsn
      subst hs; subst hn
      rw [if_pos ⟨rfl, rfl⟩, if_pos ⟨rfl, rfl, hc⟩]
    · rw [if_neg hsn, if_neg (by rintro ⟨a, b, c⟩; exact hsn ⟨a, b⟩)]
  · rw [if_neg hc, lookupFlag_initSheet]
    by_cases hsn : sheet = s ∧ scrip = n
    · obtain ⟨hs, hn⟩ := hsn
      subst hs; subst hn
      rw [if_neg (by rintro ⟨a, b, c⟩; exact hc c)]
    · rw [if_neg (by rintro ⟨a, b, c⟩; exact hsn ⟨a, b⟩)]

theorem initFlags_of_some (fl : FlagDict) (sheet scrip : String) (b : Bool)
    (h : lookupFlag fl sheet scrip = some b) :
    initFlags fl sheet scrip = fl := by
  have h1 : dictLookup fl sheet ≠ none := by
    intro hn
    rw [lookupFlag, hn] at h
    simp at h
  rw [initFlags, initSheet, if_neg h1, innerLookup_eq, h]
  simp

/-! ### Hit-path lemmas -/

theorem check_first_hit (sinkOk : Bool) (st : LedgerState) (stock : Stock)
    (sheet : String)
    (hflag : lookupFlag st.flags sheet stock.scrip_name ≠ some true)
    (hhit : stock.target_price ≤ stock.current_price) :
    check_and_log_hit_views sinkOk st stock sheet =
      ({ stock with status := "Target Hit!" },
       ⟨setFlag (initFlags st.flags sheet stock.scrip_name) sheet stock.scrip_name true,
        log_target_hit sinkOk st.ledger sheet stock.scrip_name
          stock.target_price stock.current_price⟩) := by
  have hguard : getFlag (initFlags st.flags sheet stock.scrip_name) sheet stock.scrip_name
      = false := by
    rw [getFlag_eq, lookupFlag_initFlags]
    cases hC : lookupFlag st.flags sheet stock.scrip_name with
    | none => simp [hC]
    | some b =>
        cases b with
        | false => simp [hC]
        | true => exact absurd hC hflag
  rw [check_and_log_hit_views, if_pos hhit, if_pos hguard]

theorem check_state_id_of_flag_true (sinkOk : Bool) (st : LedgerState) (stock : Stock)
    (sheet : String)
    (h : lookupFlag st.flags sheet stock.scrip_name = some true) :
    (check_and_log_hit_views sinkOk st stock sheet).2 = st := by
  rw [check_and_log_hit_views]
  by_cases hhit : stock.target_price ≤ stock.current_price
  · rw [if_pos hhit]
    have hinit : initFlags st.flags sheet stock.scrip_name = st.flags :=
      initFlags_of_some _ _ _ _ h
    rw [hinit]
    have hguard : getFlag st.flags sheet stock.scrip_name = true := by
      rw [getFlag_eq, h]
      rfl
    rw [hguard]
    simp
  · rw [if_neg hhit]

theorem check_flag_monotone (sinkOk : Bool) (st : LedgerState) (stock : Stock)
    (sheet s n : String)
    (h : lookupFlag st.flags s n = some true) :
    lookupFlag (check_and_log_hit_views sinkOk st stock sheet).2.flags s n = some true := by
  rw [check_and_log_hit_views]
  by_cases hhit : stock.target_price ≤ stock.current_price
  · rw [if_pos hhit]
    by_cases hg : getFlag (initFlags st.flags sheet stock.scrip_name) sheet stock.scrip_name
        = false
    · rw [if_pos hg]
      show lookupFlag (setFlag (initFlags st.flags sheet stock.scrip_name) sheet
        stock.scrip_name true) s n = some true
      rw [lookupFlag_setFlag]
      by_cases hsn : sheet = s ∧ stock.scrip_name = n
      · rw [if_pos hsn]
      · rw [if_neg hsn, lookupFlag_initFlags,
          if_neg (by rintro ⟨a, b, c⟩; exact hsn ⟨a, b⟩)]
        exact h
    · rw [if_neg hg]
      show lookupFlag (initFlags st.flags sheet stock.scrip_name) s n = some true
      rw [lookupFlag_initFlags,
        if_neg (by rintro ⟨a, b, c⟩; rw [c] at h; cases h)]
      exact h
  · rw [if_neg hhit]
    exact h

theorem check_preserves_price (sinkOk : Bool) (st : LedgerState) (stock : Stock)
    (sheet : String) :
    (check_and_log_hit_views sinkOk st stock sheet).1.current_price
      = stock.current_price := by
  rw [check_and_log_hit_views]
  by_cases hhit : stock.target_price ≤ stock.current_price
  · rw [if_pos hhit]
    by_cases hg : getFlag (initFlags st.flags sheet stock.scrip_name) sheet stock.scrip_name
        = false
    · rw [if_pos hg]
    · rw [if_neg hg]
  · rw [if_neg hhit]

theorem check_ledger_len_le (sinkOk : Bool) (st : LedgerState) (stock : Stock)
    (sheet : String) :
    (check_and_log_hit_views sinkOk st stock sheet).2.ledger.length
      ≤ st.ledger.length + 1 := by
  rw [check_and_log_hit_views]
  by_cases hhit : stock.target_price ≤ stock.current_price
  · rw [if_pos hhit]
    by_cases hg : getFlag (initFlags st.flags sheet stock.scrip_name) sheet stock.scrip_name
        = false
    · rw [if_pos hg]
      show (log_target_hit sinkOk st.ledger sheet stock.scrip_name
        stock.target_price stock.current_price).length ≤ st.ledger.length + 1
      rw [log_target_hit]
      by_cases hs : sinkOk = true
      · simp [hs]
      · simp [hs]
  -- remaining cases: no append
    · rw [if_neg hg]
      exact Nat.le_succ _
  · rw [if_neg hhit]
    exact Nat.le_succ _

theorem check_ledger_dichotomy (sinkOk : Bool) (st : LedgerState) (stock : Stock)
    (sheet : String) :
    (check_and_log_hit_views sinkOk st stock sheet).2.ledger = st.ledger ∨
      lookupFlag (check_and_log_hit_views sinkOk st stock sheet).2.flags sheet
        stock.scrip_name = some true := by
  rw [check_and_log_hit_views]
  by_cases hhit : stock.target_price ≤ stock.current_price
  · rw [if_pos hhit]
    by_cases hg : getFlag (initFlags st.flags sheet stock.scrip_name) sheet stock.scrip_name
        = false
    · rw [if_pos hg]
      right
      show lookupFlag (setFlag (initFlags st.flags sheet stock.scrip_name) sheet
        stock.scrip_name true) sheet stock.scrip_name = some true
      rw [lookupFlag_setFlag, if_pos ⟨rfl, rfl⟩]
    · rw [if_neg hg]
      left
      rfl
  · rw [if_neg hhit]
    left
    rfl

theorem check_status_hit (sinkOk : Bool) (st : LedgerState) (stock : Stock)
    (sheet : String) (hhit : stock.target_price ≤ stock.current_price) :
    (check_and_log_hit_views sinkOk st stock sheet).1.status = "Target Hit!" := by
  rw [check_and_log_hit_views, if_pos hhit]
  by_cases hg : getFlag (initFlags st.flags sheet stock.scrip_name) sheet stock.scrip_name
      = false
  · rw [if_pos hg]
  · rw [if_neg hg]

theorem runHits_id_of_flag_true (sinkOk : Bool) (sheet : String) (stock : Stock)
    (prices : List ℚ) (st : LedgerState)
    (h : lookupFlag st.flags sheet stock.scrip_name = some true) :
    runHits sinkOk sheet stock prices st = st := by
  induction prices generalizing st with
  | nil => rfl
  | cons p ps ih =>
      rw [runHits]
      have hstep :
          (check_and_log_hit_views sinkOk st { stock with current_price := p } sheet).2
            = st :=
        check_state_id_of_flag_true sinkOk st { stock with current_price := p } sheet h
      rw [hstep]
      exact ih st h

/-! ### Claim theorems -/

/-- Claim C1 (confirmed). Once-only hit logging: with the sticky flag false or
absent and a current_price meeting the inclusive hit predicate, the first
invocation of the hit check appends exactly one ledger record, sets the flag
true, and reports a new hit (the spec recordIfNewHit true, read off the ledger
growth via appendedNewHit); a second predicate-true invocation for the same
(watchlist, scrip) appends nothing and reports false, leaving exactly one
record. Stated for the views.py hit path (fetch_single_stock_price lines
183-206) and for app.py check_and_log_target_hit, whose flag entry is
pre-populated (as false) by load_watchlists. -/
theorem C1_once_only_hit_logging
    (st st2 : LedgerState) (stock stock2 : Stock) (sheet sheet2 scrip2 : String)
    (sinkOk2 : Bool) (target2 currentA currentA2 : ℚ)
    (hkey : stock2.scrip_name = stock.scrip_name)
    (hflag : lookupFlag st.flags sheet stock.scrip_name ≠ some true)
    (hhit : stock.target_price ≤ stock.current_price)
    (hhit2 : stock2.target_price ≤ stock2.current_price)
    (hpresent : lookupFlag st2.flags sheet2 scrip2 = some false)
    (hhitA : target2 ≤ currentA) (hhitA2 : target2 ≤ currentA2) :
    appendedNewHit st (check_and_log_hit_views true st stock sheet).2 = true ∧
    lookupFlag (check_and_log_hit_views true st stock sheet).2.flags sheet
      stock.scrip_name = some true ∧
    (check_and_log_hit_views true st stock sheet).2.ledger.length
      = st.ledger.length + 1 ∧
    appendedNewHit (check_and_log_hit_views true st stock sheet).2
      (check_and_log_hit_views sinkOk2 (check_and_log_hit_views true st stock sheet).2
        stock2 sheet).2 = false ∧
    (check_and_log_hit_views sinkOk2 (check_and_log_hit_views true st stock sheet).2
        stock2 sheet).2.ledger
      = (check_and_log_hit_views true st stock sheet).2.ledger ∧
    (check_and_log_hit_views sinkOk2 (check_and_log_hit_views true st stock sheet).2
        stock2 sheet).1.status = "Target Hit!" ∧
    (check_and_log_target_hit true st2 sheet2 scrip2 target2 currentA).2.ledger.length
      = st2.ledger.length + 1 ∧
    lookupFlag (check_and_log_target_hit true st2 sheet2 scrip2 target2 currentA).2.flags
      sheet2 scrip2 = some true ∧
    (check_and_log_target_hit true
        (check_and_log_target_hit true st2 sheet2 scrip2 target2 currentA).2
        sheet2 scrip2 target2 currentA2).2.ledger
      = (check_and_log_target_hit true st2 sheet2 scrip2 target2 currentA).2.ledger := by
  have h1 := check_first_hit true st stock sheet hflag hhit
  have hlen1 : (check_and_log_hit_views true st stock sheet).2.ledger.length
      = st.ledger.length + 1 := by
    rw [h1]
    show (log_target_hit true st.ledger sheet stock.scrip_name
      stock.target_price stock.current_price).length = st.ledger.length + 1
    simp [log_target_hit]
  have hfl1 : lookupFlag (check_and_log_hit_views true st stock sheet).2.flags sheet
      stock.scrip_name = some true := by
    rw [h1]
    show lookupFlag (setFlag (initFlags st.flags sheet stock.scrip_name) sheet
      stock.scrip_name true) sheet stock.scrip_name = some true
    rw [lookupFlag_setFlag, if_pos ⟨rfl, rfl⟩]
  have hid2 : (check_and_log_hit_views sinkOk2 (check_and_log_hit_views true st stock sheet).2
      stock2 sheet).2 = (check_and_log_hit_views true st stock sheet).2 := by
    apply check_state_id_of_flag_true
    rw [hkey]
    exact hfl1
  have hguardA : getFlag st2.flags sheet2 scrip2 = false := by
    rw [getFlag_eq, hpresent]
    rfl
  have hA1 : check_and_log_target_hit true st2 sheet2 scrip2 target2 currentA
      = ("🎯 Target Hit!",
         ⟨setFlag st2.flags sheet2 scrip2 true,
          log_target_hit true st2.ledger sheet2 scrip2 target2 currentA⟩) := by
    rw [check_and_log_target_hit, if_pos hhitA, if_pos hguardA]
  have hflA : lookupFlag (check_and_log_target_hit true st2 sheet2 scrip2 target2
      currentA).2.flags sheet2 scrip2 = some true := by
    rw [hA1]
    show lookupFlag (setFlag st2.flags sheet2 scrip2 true) sheet2 scrip2 = some true
    rw [lookupFlag_setFlag, if_pos ⟨rfl, rfl⟩]
  have hA2 : (check_and_log_target_hit true
      (check_and_log_target_hit true st2 sheet2 scrip2 target2 currentA).2
      sheet2 scrip2 target2 currentA2).2
      = (check_and_log_target_hit true st2 sheet2 scrip2 target2 currentA).2 := by
    rw [check_and_log_target_hit, if_pos hhitA2]
    have hgt : getFlag (check_and_log_target_hit true st2 sheet2 scrip2 target2
        currentA).2.flags sheet2 scrip2 = true := by
      rw [getFlag_eq, hflA]
      rfl
    rw [hgt]
    simp
  refine ⟨?_, hfl1, hlen1, ?_, ?_, ?_, ?_, hflA, ?_⟩
  · rw [appendedNewHit, hlen1]
    simp
  · rw [appendedNewHit, hid2]
    simp
  · rw [hid2]
  · exact check_status_hit sinkOk2 _ stock2 sheet hhit2
  · rw [hA1]
    show (log_target_hit true st2.ledger sheet2 scrip2 target2 currentA).length
      = st2.ledger.length + 1
    simp [log_target_hit]
  · rw [hA2]

/-- Claim C1 witness at concrete inputs: Demo/RELIANCE (target 3000, price 3050)
through the views.py hit path starting from the empty state, and W1/TATA
(target 180, prices 200 then 250) through app.py check_and_log_target_hit
starting from a state whose flag is present and false. -/
theorem C1_once_only_hit_logging_witness :
    appendedNewHit emptyState (check_and_log_hit_views true emptyState demoStock "Demo").2
      = true ∧
    lookupFlag (check_and_log_hit_views true emptyState demoStock "Demo").2.flags "Demo"
      demoStock.scrip_name = some true ∧
    (check_and_log_hit_views true emptyState demoStock "Demo").2.ledger.length
      = emptyState.ledger.length + 1 ∧
    appendedNewHit (check_and_log_hit_views true emptyState demoStock "Demo").2
      (check_and_log_hit_views true (check_and_log_hit_views true emptyState demoStock "Demo").2
        demoStock "Demo").2 = false ∧
    (check_and_log_hit_views true (check_and_log_hit_views true emptyState demoStock "Demo").2
        demoStock "Demo").2.ledger
      = (check_and_log_hit_views true emptyState demoStock "Demo").2.ledger ∧
    (check_and_log_hit_views true (check_and_log_hit_views true emptyState demoStock "Demo").2
        demoStock "Demo").1.status = "Target Hit!" ∧
    (check_and_log_target_hit true presentState "W1" "TATA" 180 200).2.ledger.length
      = presentState.ledger.length + 1 ∧
    lookupFlag (check_and_log_target_hit true presentState "W1" "TATA" 180 200).2.flags
      "W1" "TATA" = some true ∧
    (check_and_log_target_hit true
        (check_and_log_target_hit true presentState "W1" "TATA" 180 200).2
        "W1" "TATA" 180 250).2.ledger
      = (check_and_log_target_hit true presentState "W1" "TATA" 180 200).2.ledger :=
  C1_once_only_hit_logging emptyState presentState demoStock demoStock "Demo" "W1" "TATA"
    true 180 200 250 rfl (by decide) (by decide) (by decide) (by decide) (by decide)
    (by decide)

/-- Claim C4 counterexample. Starting from the empty state, the cycle sequence
hit (3050 at target 3000), drop below (2900), hit again (3050) appends exactly
one ledger row: the code never re-arms the sticky flag on a drop below target,
so no fresh record is appended for the re-crossing, contrary to the claim
(which requires two rows here). -/
theorem C4_no_rearm_counterexample :
    (runHits true "Demo" demoStock [3050, 2900, 3050] emptyState).ledger.length = 1 ∧
    (runHits true "Demo" demoStock [3050, 2900, 3050] emptyState).ledger.length ≠ 2 := by
  constructor <;> decide

/-- Claim C4 as amended. For a given (watchlist, scrip) pair at most one ledger
row is appended across an entire sequence of refresh cycles of one load cycle,
not merely one per continuous TargetHit span: once the sticky flag is true,
every later cycle leaves the whole ledger state unchanged whatever the price
does, so a drop below target followed by a re-crossing appends nothing; the
flag is reset only by an explicit reload. -/
theorem C4_at_most_one_hit_row (sheet : String) (stock : Stock) (prices : List ℚ)
    (st : LedgerState) :
    (lookupFlag st.flags sheet stock.scrip_name = some true →
        runHits true sheet stock prices st = st) ∧
    (runHits true sheet stock prices st).ledger.length ≤ st.ledger.length + 1 := by
  constructor
  · intro h
    exact runHits_id_of_flag_true true sheet stock prices st h
  · induction prices generalizing st with
    | nil => exact Nat.le_succ _
    | cons p ps ih =>
        rw [runHits]
        rcases check_ledger_dichotomy true st { stock with current_price := p } sheet
          with hL | hR
        · calc (runHits true sheet stock ps
                (check_and_log_hit_views true st { stock with current_price := p }
                  sheet).2).ledger.length
              ≤ (check_and_log_hit_views true st { stock with current_price := p }
                  sheet).2.ledger.length + 1 := ih _
            _ = st.ledger.length + 1 := by rw [hL]
        · rw [runHits_id_of_flag_true true sheet stock ps _ hR]
          exact check_ledger_len_le true st { stock with current_price := p } sheet

/-- Claim C4 amended-claim witness at concrete inputs: with the flag already
true, a further hit cycle leaves the state unchanged, and the
hit-below-re-cross sequence from the empty state appends at most one row. -/
theorem C4_at_most_one_hit_row_witness :
    runHits true "Demo" demoStock [3050] trueState = trueState ∧
    (runHits true "Demo" demoStock [3050, 2900, 3050] emptyState).ledger.length
      ≤ emptyState.ledger.length + 1 :=
  ⟨(C4_at_most_one_hit_row "Demo" demoStock [3050] trueState).1 (by decide),
   (C4_at_most_one_hit_row "Demo" demoStock [3050, 2900, 3050] emptyState).2⟩

/-- Claim C5 counterexample. With the hit-log sink failing (log_target_hit
catches the failure internally and returns normally), the first hit invocation
still sets the sticky flag to true while appending nothing - the claim states
the flag is NOT set on a write failure. -/
theorem C5_flag_set_despite_write_failure :
    lookupFlag (check_and_log_hit_views false emptyState demoStock "Demo").2.flags
      "Demo" "RELIANCE" = some true ∧
    (check_and_log_hit_views false emptyState demoStock "Demo").2.ledger = [] := by
  constructor <;> decide

/-- Claim C5 as amended. A ledger write failure is caught and logged inside
log_target_hit, which returns normally, so the caller still sets the sticky
flag to true; consequently a later cycle in which the hit predicate still holds
(even with the sink recovered) appends nothing: the hit record is silently
dropped, not retried. -/
theorem C5_write_failure_amended (st : LedgerState) (stock stock2 : Stock)
    (sheet : String)
    (hkey : stock2.scrip_name = stock.scrip_name)
    (hflag : lookupFlag st.flags sheet stock.scrip_name ≠ some true)
    (hhit : stock.target_price ≤ stock.current_price)
    (hhit2 : stock2.target_price ≤ stock2.current_price) :
    lookupFlag (check_and_log_hit_views false st stock sheet).2.flags sheet
      stock.scrip_name = some true ∧
    (check_and_log_hit_views false st stock sheet).2.ledger = st.ledger ∧
    (check_and_log_hit_views true (check_and_log_hit_views false st stock sheet).2
        stock2 sheet).2.ledger = st.ledger ∧
    (check_and_log_hit_views true (check_and_log_hit_views false st stock sheet).2
        stock2 sheet).1.status = "Target Hit!" := by
  have h1 := check_first_hit false st stock sheet hflag hhit
  have hfl : lookupFlag (check_and_log_hit_views false st stock sheet).2.flags sheet
      stock.scrip_name = some true := by
    rw [h1]
    show lookupFlag (setFlag (initFlags st.flags sheet stock.scrip_name) sheet
      stock.scrip_name true) sheet stock.scrip_name = some true
    rw [lookupFlag_setFlag, if_pos ⟨rfl, rfl⟩]
  have hled : (check_and_log_hit_views false st stock sheet).2.ledger = st.ledger := by
    rw [h1]
    show log_target_hit false st.ledger sheet stock.scrip_name
      stock.target_price stock.current_price = st.ledger
    rw [log_target_hit]
    simp
  have hid : (check_and_log_hit_views true (check_and_log_hit_views false st stock sheet).2
      stock2 sheet).2 = (check_and_log_hit_views false st stock sheet).2 := by
    apply check_state_id_of_flag_true
    rw [hkey]
    exact hfl
  refine ⟨hfl, hled, ?_, ?_⟩
  · rw [hid]
    exact hled
  · exact check_status_hit true _ stock2 sheet hhit2

/-- Claim C5 amended-claim witness at concrete inputs: failing sink on the
Demo/RELIANCE hit, then a second hit cycle with the sink recovered. -/
theorem C5_write_failure_amended_witness :
    lookupFlag (check_and_log_hit_views false emptyState demoStock "Demo").2.flags "Demo"
      demoStock.scrip_name = some true ∧
    (check_and_log_hit_views false emptyState demoStock "Demo").2.ledger
      = emptyState.ledger ∧
    (check_and_log_hit_views true (check_and_log_hit_views false emptyState demoStock
        "Demo").2 demoStock "Demo").2.ledger = emptyState.ledger ∧
    (check_and_log_hit_views true (check_and_log_hit_views false emptyState demoStock
        "Demo").2 demoStock "Demo").1.status = "Target Hit!" :=
  C5_write_failure_amended emptyState demoStock demoStock "Demo" rfl (by decide)
    (by decide) (by decide)

/-- Claim C10 (confirmed). Within one load cycle the refresh path only moves a
sticky flag upward: a flag that reads true still reads true after any hit-check
invocation (for any pair, any sink availability); a below-target cycle leaves
the ledger state entirely unchanged; one fetch_sheet call (the lazy load path
used when the store is empty) does not touch the flag dict at all - in
particular a tab already present keeps its flags, as the guarded
initialisation of lines 148-149 also would; and only the explicit reload
(refresh_sheet) clears the flags, leaving the persisted rows in place. -/
theorem C10_flag_monotonicity (sinkOk : Bool) (st : LedgerState) (stock : Stock)
    (sheet s n : String) (fl : FlagDict) (tab : String) (scrips : List String)
    (d : List (String × Bool))
    (htrue : lookupFlag st.flags s n = some true)
    (htab : dictLookup fl tab = some d) :
    lookupFlag (check_and_log_hit_views sinkOk st stock sheet).2.flags s n = some true ∧
    (stock.current_price < stock.target_price →
        (check_and_log_hit_views sinkOk st stock sheet).2 = st) ∧
    fetch_sheet_flags st.flags = st.flags ∧
    dictLookup (fetch_sheet_flag_init fl tab scrips) tab = some d ∧
    (refresh_sheet_model st).flags = [] ∧
    (refresh_sheet_model st).ledger = st.ledger := by
  refine ⟨check_flag_monotone sinkOk st stock sheet s n htrue, ?_, rfl, ?_, rfl, rfl⟩
  · intro hlt
    rw [check_and_log_hit_views, if_neg (not_le.mpr hlt)]
  · rw [fetch_sheet_flag_init, if_neg (by simp [htab])]
    exact htab

/-- Claim C10 witness at concrete inputs: a true Demo/RELIANCE flag survives a
below-target cycle unchanged, and the guarded flag initialisation preserves a
tab that is already present. -/
theorem C10_flag_monotonicity_witness :
    lookupFlag (check_and_log_hit_views true trueState belowStock "Demo").2.flags
      "Demo" "RELIANCE" = some true ∧
    (check_and_log_hit_views true trueState belowStock "Demo").2 = trueState ∧
    dictLookup (fetch_sheet_flag_init [("W1", [("TATA", false)])] "W1" ["X"]) "W1"
      = some [("TATA", false)] := by
  have h := C10_flag_monotonicity true trueState belowStock "Demo" "Demo" "RELIANCE"
    [("W1", [("TATA", false)])] "W1" ["X"] [("TATA", false)] (by decide) (by decide)
  exact ⟨h.1, h.2.1 (by decide), h.2.2.2.1⟩

/-- Claim C2 (code bug). Batch completeness fails as soon as a sheet needs more
than one batch: after the first batch of 25, fetch_stock_prices evaluates
time.sleep(BATCH_DELAY) (views.py line 305), but views.py never imports time,
so NameError aborts the refresh and the output carries none of the 26 input
entries; a single-batch sheet (25 entries) is returned complete. Here runBatch
is instantiated with every task completing normally and returning its stock. -/
theorem C2_missing_time_import_aborts_batching :
    fetch_stock_prices_sheet (fun b => .ok b) ((List.range 26).map mkStock)
      = .error "NameError: name time is not defined" ∧
    fetch_stock_prices_sheet (fun b => .ok b) ((List.range 25).map mkStock)
      = .ok ((List.range 25).map mkStock) := by
  constructor <;> rfl

/-- Claim C3 counterexample. The Flask fetcher history fallback (app.py
fetch_stock_price, lines 135-139) selects the LAST candle close: with candles
[2950, 3050] and no info-field prices it returns 3050, not the second-to-last
close 2950 the claim requires for every fetch. -/
theorem C3_last_close_counterexample :
    fetch_stock_price_app (.ok ⟨none, none, [2950, 3050]⟩) (.error "connection refused")
      none none = 3050 ∧
    fetch_stock_price_app (.ok ⟨none, none, [2950, 3050]⟩) (.error "connection refused")
      none none ≠ 2950 := by
  have h1 : fetch_stock_price_app (.ok ⟨none, none, [2950, 3050]⟩)
      (.error "connection refused") none none = round2 3050 := by
    simp [fetch_stock_price_app, tryTicker, List.getLast?]
  have h2 : round2 (3050 : ℚ) = 3050 := by simpa using round2_natCast 3050
  rw [h1, h2]
  constructor
  · rfl
  · norm_num

/-- Claim C3 as amended. In the batch pipeline (views.py
fetch_single_stock_price) the claim holds: two or more candles select the
second-to-last close, exactly one selects that close (both rounded to two
decimals - the identity on two-decimal closes, as hypothesised here), and zero
candles yield status No Data with current_price 0 and no ledger interaction;
the Flask fetcher history fallback instead uses the last candle close, and
zero candles there fall through to the other sources with no NoData status. -/
theorem C3_price_selection_amended (st : LedgerState) (stock : Stock) (sheet : String)
    (hist : List ℚ) (hexact : ∀ c ∈ hist, round2 c = c) :
    (2 ≤ hist.length →
      (fetch_single_stock_price true (.ok hist) st stock sheet).1.current_price
        = hist.getD (hist.length - 2) 0) ∧
    (hist.length = 1 →
      (fetch_single_stock_price true (.ok hist) st stock sheet).1.current_price
        = hist.getD 0 0) ∧
    (hist = [] →
      fetch_single_stock_price true (.ok hist) st stock sheet
        = ({ stock with current_price := 0, status := "No Data" }, st)) ∧
    fetch_stock_price_app (.ok ⟨none, none, hist⟩) (.error "connection refused")
      none none = round2 (hist.getLast?.getD 0) := by
  refine ⟨?_, ?_, ?_, ?_⟩
  · intro h2
    have hne : hist.length ≠ 0 := by omega
    have hlt : hist.length - 2 < hist.length := by omega
    simp only [fetch_single_stock_price]
    rw [if_pos hne, check_preserves_price]
    show round2 (if 2 ≤ hist.length then hist.getD (hist.length - 2) 0
      else hist.getD (hist.length - 1) 0) = hist.getD (hist.length - 2) 0
    rw [if_pos h2, List.getD_eq_getElem hist 0 hlt]
    exact hexact _ (List.getElem_mem hlt)
  · intro h1
    have hne : hist.length ≠ 0 := by omega
    have hnot2 : ¬ 2 ≤ hist.length := by omega
    have h0 : (0 : ℕ) < hist.length := by omega
    simp only [fetch_single_stock_price]
    rw [if_pos hne, check_preserves_price]
    show round2 (if 2 ≤ hist.length then hist.getD (hist.length - 2) 0
      else hist.getD (hist.length - 1) 0) = hist.getD 0 0
    rw [if_neg hnot2, h1]
    show round2 (hist.getD 0 0) = hist.getD 0 0
    rw [List.getD_eq_getElem hist 0 h0]
    exact hexact _ (List.getElem_mem h0)
  · intro hnil
    subst hnil
    rfl
  · cases hist with
    | nil =>
        have h0 : round2 (0 : ℚ) = 0 := by simpa using round2_natCast 0
        simp [fetch_stock_price_app, tryTicker, fetch_from_nse_api, List.getLast?, h0]
    | cons a l => simp [fetch_stock_price_app, tryTicker]

/-- Claim C3 amended-claim witness at the spec scenario: candles [2950, 3050]
select 2950 through the views.py fetcher, while the Flask history fallback on
the same candles returns 3050. -/
theorem C3_price_selection_amended_witness :
    (fetch_single_stock_price true (.ok [2950, 3050]) emptyState demoStock
      "Demo").1.current_price = ([2950, 3050] : List ℚ).getD 0 0 ∧
    fetch_stock_price_app (.ok ⟨none, none, [2950, 3050]⟩) (.error "connection refused")
      none none = round2 (([2950, 3050] : List ℚ).getLast?.getD 0) := by
  have hx : ∀ c ∈ ([2950, 3050] : List ℚ), round2 c = c := by
    intro c hc
    rcases List.mem_cons.mp hc with h | hc2
    · subst h
      exact round2_2950
    · rcases List.mem_cons.mp hc2 with h | h3
      · subst h
        exact round2_3050
      · cases h3
  have h := C3_price_selection_amended emptyState demoStock "Demo" [2950, 3050] hx
  exact ⟨h.1 (by decide), h.2.2.2⟩

/-- Claim C6 (code bug). When a sibling task is still pending at the 60-second
batch deadline, as_completed raises TimeoutError at the for-statement, outside
the try block, so process_stock_batch aborts: the pending entry is never marked
Timeout and the completed sibling result is discarded too - no output list
exists at all. (The 20-second future.result timeout can never fire, since
as_completed yields only completed futures, so no entry ever receives the
Timeout status.) -/
theorem C6_batch_deadline_aborts :
    process_stock_batch [(mkStock 0, .done (mkStock 0))] [mkStock 1]
      = .error "concurrent.futures.TimeoutError" ∧
    ∀ l : List Stock,
      process_stock_batch [(mkStock 0, .done (mkStock 0))] [mkStock 1] ≠ .ok l := by
  refine ⟨rfl, ?_⟩
  intro l h
  rw [show process_stock_batch [(mkStock 0, .done (mkStock 0))] [mkStock 1]
    = .error "concurrent.futures.TimeoutError" from rfl] at h
  exact Except.noConfusion h

/-- Claim C7 counterexample. The source fetchers perform no retry: with a
provider whose first attempt fails transiently and whose second attempt would
succeed with candles [100], the views.py fetcher - which makes exactly one
provider call - yields status Error with price 0, whereas the retry policy the
claim describes (rendered from the spec as fetch_with_retry, 3 attempts)
succeeds on the second attempt. -/
theorem C7_single_attempt_counterexample :
    (fetch_single_stock_price true (pTransient 0) emptyState demoStock "Demo").1.status
      = "Error" ∧
    (fetch_single_stock_price true (pTransient 0) emptyState demoStock
      "Demo").1.current_price = 0 ∧
    fetch_with_retry 3 pTransient 0 = .ok [100] := by
  refine ⟨rfl, rfl, ?_⟩
  rfl

/-- Claim C7 as amended. No retry, backoff or not-found classification exists:
the Django fetcher makes a single provider request and maps any failure to
status Error with price 0, leaving the ledger state untouched; the Flask
fetcher falls through a fixed chain of alternative sources (.NS ticker, .BO
ticker, NSE API, Yahoo chart) without repeating any and returns 0.0 when every
source fails. -/
theorem C7_no_retry_amended (e eNS eBO : String) (sinkOk : Bool) (st : LedgerState)
    (stock : Stock) (sheet : String) :
    fetch_single_stock_price sinkOk (.error e) st stock sheet
      = ({ stock with current_price := 0, status := "Error" }, st) ∧
    fetch_stock_price_app (.error eNS) (.error eBO) none none = 0 :=
  ⟨rfl, rfl⟩

/-- Claim C7 amended-claim witness at concrete inputs: a rate-limit failure on
the single Django attempt, and a fully failed Flask chain. -/
theorem C7_no_retry_amended_witness :
    fetch_single_stock_price true (.error "HTTP 429 too many requests") emptyState
      demoStock "Demo"
      = ({ demoStock with current_price := 0, status := "Error" }, emptyState) ∧
    fetch_stock_price_app (.error "no data") (.error "no data") none none = 0 :=
  C7_no_retry_amended "HTTP 429 too many requests" "no data" "no data" true emptyState
    demoStock "Demo"

/-- Claim C8 counterexample. The app.py monitor gate is false at Wednesday
09:15:00 (minute 15 is not one of the polling minutes 1, 16, 31, 46), where the
claim requires true; and the tasks.py in-job gate, carrying no weekday test, is
true at Saturday 10:00, where the claim requires false. -/
theorem C8_gate_counterexample :
    should_run ⟨2, ⟨9, 15, 0⟩⟩ = false ∧ scheduled_job_gate ⟨5, ⟨10, 0, 0⟩⟩ = true := by
  constructor <;> decide

/-- Claim C8 as amended. For a valid wall-clock time (minute and second below
60), the app.py monitor gate holds iff the weekday is Mon-Fri, the time of day
lies in the inclusive window 09:15:00-15:30:00, AND the minute is one of
1, 16, 31, 46; hence it is false for Saturday 10:00, false (not true) for
Wednesday 09:15:00 exactly, true at Wednesday 09:16:00, and false for Wednesday
15:30:01. The tasks.py in-job gate checks only the time window (weekday
filtering lives in the surrounding cron trigger): inclusive at 09:15:00,
exclusive past 15:30:00. -/
theorem C8_gate_amended (t : Timestamp) (hm : t.tod.minute < 60)
    (hs : t.tod.second < 60) :
    (should_run t = true ↔
      (t.weekday < 5 ∧ 555 ≤ 60 * t.tod.hour + t.tod.minute ∧
        (60 * t.tod.hour + t.tod.minute < 930 ∨
          (60 * t.tod.hour + t.tod.minute = 930 ∧ t.tod.second = 0)) ∧
        (t.tod.minute = 1 ∨ t.tod.minute = 16 ∨ t.tod.minute = 31 ∨
          t.tod.minute = 46))) ∧
    should_run ⟨5, ⟨10, 0, 0⟩⟩ = false ∧
    should_run ⟨2, ⟨9, 15, 0⟩⟩ = false ∧
    should_run ⟨2, ⟨9, 16, 0⟩⟩ = true ∧
    should_run ⟨2, ⟨15, 30, 1⟩⟩ = false ∧
    scheduled_job_gate ⟨2, ⟨9, 15, 0⟩⟩ = true ∧
    scheduled_job_gate ⟨2, ⟨15, 30, 1⟩⟩ = false := by
  refine ⟨?_, by decide, by decide, by decide, by decide, by decide, by decide⟩
  obtain ⟨w, ⟨h, m, s⟩⟩ := t
  simp only at hm hs
  simp only [should_run, timeLe, market_start, market_end, Bool.and_eq_true,
    Bool.or_eq_true, beq_iff_eq]
  split_ifs <;> simp only [decide_eq_true_eq] <;> omega

/-- Claim C8 amended-claim witness at concrete inputs: the gate fires at
Wednesday 09:16:00 and the in-job window accepts 09:15:00. -/
theorem C8_gate_amended_witness :
    should_run ⟨2, ⟨9, 16, 0⟩⟩ = true ∧ scheduled_job_gate ⟨2, ⟨9, 15, 0⟩⟩ = true := by
  have hw := C8_gate_amended ⟨2, ⟨9, 16, 0⟩⟩ (by decide) (by decide)
  exact ⟨hw.2.2.2.1, hw.2.2.2.2.2.1⟩

/-- Claim C9 (code bug). views.py fetch_sheet reads resp.text on line 118, but
resp is never assigned in the function (the HTTP request is missing), so every
tab body raises NameError and the per-tab handler loads the tab as the empty
list: a well-formed row (RELIANCE, 3000) yields no watchlist entry at all,
although the row loop of lines 123-143 - which the NameError prevents from
running - would turn it into exactly one entry while skipping an empty-name row
and a non-numeric-target row. -/
theorem C9_fetch_sheet_loads_nothing :
    fetch_sheet_tab [⟨"RELIANCE", .num 3000⟩] = [] ∧
    parse_rows [⟨"RELIANCE", .num 3000⟩]
      = [⟨"RELIANCE", 3000, "RELIANCE.NS", 0, "Not Fetched"⟩] ∧
    parse_rows [⟨"RELIANCE", .num 3000⟩, ⟨"", .num 100⟩, ⟨"TATA", .bad⟩]
      = [⟨"RELIANCE", 3000, "RELIANCE.NS", 0, "Not Fetched"⟩] := by
  refine ⟨rfl, ?_, ?_⟩ <;> decide

end StockMonitor
